import Mathlib

/-!
Shallow embedding of the pure-Python PAM fallback shim of `src/PAM.py`
(classes `PamHandle_type`, `pam`, `PamEnvMapping`, `PamException`,
`error`, and the helper logic of `start` and `_call_handler`),
together with theorems settling the specification claims about it.

Machine integers are modelled as `Int` (Python integers are unbounded,
so no wrap-around is involved); fallible Python code is modelled with
`Except`; the attribute dictionaries of Python objects are modelled as
association lists where lookup takes the most recent binding.
-/

/-- A Python value, as far as the PAM shim manipulates values:
scalars, lists/tuples (conflated, since the shim only ever tests
`isinstance(x, (list, tuple))`, treating both alike), and
attribute-bearing objects modelled by their attribute dictionary. -/
inductive PyVal where
  | none
  | bool (b : Bool)
  | int (n : Int)
  | str (s : String)
  | list (xs : List PyVal)
  | obj (attrs : List (String × PyVal))

/-- Python exceptions that the shim raises or handles.  `pamException`
models the class `PamException` (fields `pam_result`, message) and
`error` models the module-level class `error` (fields message, code),
the two recognized structured forms; the remaining constructors model
the builtin exception types the code touches.  `exception` stands for
any other exception (for example `RuntimeError("disk full")` raised
inside a module). -/
inductive PyErr where
  | pamException (pam_result : PyVal) (msg : String)
  | error (msg : String) (code : PyVal)
  | runtimeError (msg : String)
  | typeError (msg : String)
  | valueError (msg : String)
  | attributeError (msg : String)
  | keyError (key : String)
  | exception (msg : String)

/-- Python `str(e)` on an exception carrying one message argument.
(For `KeyError` Python would render the key with quotes; no claim
depends on that rendering, so the bare key is used.) -/
def PyErr.message : PyErr → String
  | .pamException _ m => m
  | .error m _ => m
  | .runtimeError m => m
  | .typeError m => m
  | .valueError m => m
  | .attributeError m => m
  | .keyError k => k
  | .exception m => m

/-- Python `isinstance(v, str)`. -/
def PyVal.isStr : PyVal → Bool
  | .str _ => true
  | _ => false

/-- Python `isinstance(v, int)` (booleans are integers in Python). -/
def pyIsInt : PyVal → Bool
  | .int _ => true
  | .bool _ => true
  | _ => false

/-- Python `isinstance(v, (list, tuple))`. -/
def PyVal.isList : PyVal → Bool
  | .list _ => true
  | _ => false

/-- Python `==` on the value shapes the shim compares (numeric
comparison identifies booleans with 0 and 1, as Python does). -/
def pyEq : PyVal → PyVal → Bool
  | .int a, .int b => a == b
  | .int a, .bool b => a == (if b then (1 : Int) else 0)
  | .bool a, .int b => (if a then (1 : Int) else 0) == b
  | .bool a, .bool b => a == b
  | .str a, .str b => a == b
  | .none, .none => true
  | _, _ => false

/-- Python truthiness of a value, as used by
`getattr(self, ..., False)` tests. -/
def pyTruthy : PyVal → Bool
  | .none => false
  | .bool b => b
  | .int n => n != 0
  | .str s => s != ""
  | .list xs => !xs.isEmpty
  | .obj _ => true

/-- Python `type(v).__name__` for the value shapes modelled here. -/
def pyTypeName : PyVal → String
  | .none => "NoneType"
  | .bool _ => "bool"
  | .int _ => "int"
  | .str _ => "str"
  | .list _ => "list"
  | .obj _ => "object"

/-- Python `str(v)` for scalar values.  The shim only stringifies
aggregates in one unreachable-for-the-claims fallback branch of the
conversation reply coercion; their rendering is abstracted. -/
def pyStr : PyVal → String
  | .none => "None"
  | .bool b => if b then "True" else "False"
  | .int n => toString n
  | .str s => s
  | .list _ => "<list>"
  | .obj _ => "<object>"

/-- Character-list core of Python `s.startswith(p)`: the second list
is the candidate leading segment of the first. -/
def listStartsWith : List Char → List Char → Bool
  | _, [] => true
  | [], _ :: _ => false
  | a :: as, b :: bs => a == b && listStartsWith as bs

/-- Python `s.startswith(p)`. -/
def pyStartsWith (s p : String) : Bool :=
  listStartsWith s.data p.data

/-- Python `s.endswith(p)`. -/
def pyEndsWith (s p : String) : Bool :=
  listStartsWith s.data.reverse p.data.reverse

/-- Python `line.split()`: split on runs of whitespace, dropping empty
fields.  Auxiliary accumulator holds the current field reversed. -/
def splitWsAux : List Char → List Char → List String
  | [], acc => if acc.isEmpty then [] else [String.mk acc.reverse]
  | c :: cs, acc =>
    if c.isWhitespace then
      if acc.isEmpty then splitWsAux cs []
      else String.mk acc.reverse :: splitWsAux cs []
    else splitWsAux cs (c :: acc)

/-- Python `line.split()` on a string. -/
def splitWs (s : String) : List String :=
  splitWsAux s.data []

/-- The `PamEnvMapping` class attached to the handle by `pam.start`:
a dictionary `_d` of string keys to string values.  The `isinstance`
guards of the Python code are enforced by the Lean types. -/
structure PamEnvMapping where
  d : List (String × String)

/-- Dictionary insertion, `self._d[key] = value`: the new binding
shadows (and here replaces) any previous binding of the key. -/
def dictInsert (d : List (String × String)) (key value : String) :
    List (String × String) :=
  (key, value) :: d.filter (fun p => p.1 != key)

/-- The `__setitem__` method of `PamEnvMapping`. -/
def PamEnvMapping.setitem (e : PamEnvMapping) (key value : String) :
    Except PyErr PamEnvMapping :=
  if key = "" then .error (.valueError "PAM environment key must not be 0 length")
  else if key.data.contains '=' then
    .error (.valueError "PAM environment key cannot contain =")
  else .ok ⟨dictInsert e.d key value⟩

/-- The `__getitem__` method of `PamEnvMapping`. -/
def PamEnvMapping.getitem (e : PamEnvMapping) (key : String) :
    Except PyErr String :=
  if key = "" then .error (.valueError "PAM environment key must not be 0 length")
  else if key.data.contains '=' then
    .error (.valueError "PAM environment key cannot contain =")
  else
    match e.d.lookup key with
    | some v => .ok v
    | Option.none => .error (.keyError key)

/-- The `__delitem__` method of `PamEnvMapping`. -/
def PamEnvMapping.delitem (e : PamEnvMapping) (key : String) :
    Except PyErr PamEnvMapping :=
  if (e.d.lookup key).isSome then
    .ok ⟨e.d.filter (fun p => p.1 != key)⟩
  else .error (.keyError key)

/-- The `__contains__` method of `PamEnvMapping`. -/
def PamEnvMapping.contains (e : PamEnvMapping) (key : String) : Bool :=
  (e.d.lookup key).isSome

/-- The `get` method of `PamEnvMapping`. -/
def PamEnvMapping.get (e : PamEnvMapping) (key : String)
    (default : Option String) : Option String :=
  match e.d.lookup key with
  | some v => some v
  | Option.none => default

/-- The application-supplied conversation delegate.  The Python code
probes three call shapes: `conv(self, convs)`, `conv(convs)` and
`conv(self, convs, None)`.  Since a Lean structure cannot contain
functions over the handle type that contains it, the handle argument
that Python passes is treated as closed over by the delegate; the
three fields model the three arities over the remaining arguments.
A call that Python would reject with a `TypeError` (or whose body
raises one) is modelled by the delegate returning that error. -/
structure Conv where
  call2 : PyVal → Except PyErr PyVal
  call1 : PyVal → Except PyErr PyVal
  call3 : PyVal → PyVal → Except PyErr PyVal

/-- The per-transaction handle, class `PamHandle_type`: its instance
attribute dictionary (most recent binding first) plus the conversation
delegate stored at construction (a function value, hence kept outside
the `PyVal` dictionary; the `exception` attribute, a class object, is
likewise not representable as a `PyVal` and no claim reads it). -/
structure PamHandle_type where
  attrs : List (String × PyVal)
  conv : Conv

/-- Direct `object.__setattr__`: bypasses all checks. -/
def PamHandle_type.rawSet (h : PamHandle_type) (name : String) (v : PyVal) :
    PamHandle_type :=
  { h with attrs := (name, v) :: h.attrs }

/-- The `_item_const` table of `PamHandle_type.__setattr__`. -/
def item_const_table : List (String × String) :=
  [("tty", "PAM_TTY"), ("user", "PAM_USER"), ("rhost", "PAM_RHOST"),
   ("ruser", "PAM_RUSER"), ("user_prompt", "PAM_USER_PROMPT"),
   ("xdisplay", "PAM_XDISPLAY"), ("authtok_type", "PAM_AUTHTOK_TYPE")]

/-- The truthiness test `getattr(self, '_constants_locked', False)`. -/
def PamHandle_type.constantsLocked (h : PamHandle_type) : Bool :=
  match h.attrs.lookup "_constants_locked" with
  | some v => pyTruthy v
  | Option.none => false

/-- The `__setattr__` method of `PamHandle_type`: names beginning with
an underscore are set directly; when the constants are locked, names
beginning with `PAM_` or `_PAM_` are rejected as read-only; known PAM
item names only accept string values; everything else is stored.
(Messages carry the same words as the source minus quoting.) -/
def PamHandle_type.setattr (h : PamHandle_type) (name : String) (v : PyVal) :
    Except PyErr PamHandle_type :=
  if pyStartsWith name "_" then .ok (h.rawSet name v)
  else if h.constantsLocked &&
      (pyStartsWith name "PAM_" || pyStartsWith name "_PAM_") then
    .error (.attributeError
      ("attribute " ++ name ++ " of PamHandle_type objects is not writable"))
  else
    match item_const_table.lookup name with
    | some c =>
      if v.isStr then .ok (h.rawSet name v)
      else .error (.typeError ("PAM item " ++ c ++ " must be set to a string"))
    | Option.none => .ok (h.rawSet name v)

/-- The `_populate_constants` method: write every entry of the
module's `PAM_CONSTANTS` dictionary (or the single default
`PAM_SUCCESS = 0` when it is absent or not a dictionary) with
`object.__setattr__`, then set `_constants_locked` to `True`. -/
def PamHandle_type.populate_constants (h : PamHandle_type)
    (consts : Option (List (String × PyVal))) : PamHandle_type :=
  let h1 :=
    match consts with
    | some kvs =>
      kvs.foldl
        (fun (acc : PamHandle_type) (kv : String × PyVal) =>
          acc.rawSet kv.1 kv.2) h
    | Option.none => h.rawSet "PAM_SUCCESS" (.int 0)
  h1.rawSet "_constants_locked" (.bool true)

/-- The item names for which `__getattr__` returns `None` instead of
raising `AttributeError`. -/
def item_names : List String :=
  ["authtok", "authtok_type", "oldauthtok", "rhost", "ruser", "service",
   "tty", "user", "user_prompt", "xdisplay", "xauthdata"]

/-- Python `getattr(handle, name, default)`: instance dictionary
first, then the `__getattr__` fallback (which yields `None` for the
item names and raises otherwise, surfacing the default).  The three
class-valued attributes `XAuthData`, `Message` and `Response` that
`__getattr__` also materializes are modelled as the standalone
constructors below; no claim fetches them through `getattr` with a
default. -/
def PamHandle_type.getattrDefault (h : PamHandle_type) (name : String)
    (default : PyVal) : PyVal :=
  match h.attrs.lookup name with
  | some v => v
  | Option.none => if item_names.contains name then PyVal.none else default

/-- The `Message` class materialized by `__getattr__`: argument 1 must
be an integer (Python counts booleans as integers) and argument 2 a
string; on success the object stores `msg` and `msg_style`. -/
def Message (msg_style msg : PyVal) : Except PyErr PyVal :=
  if !pyIsInt msg_style then
    .error (.typeError ("Message() argument 1 must be int, not " ++ pyTypeName msg_style))
  else if !msg.isStr then
    .error (.typeError ("Message() argument 2 must be string, not " ++
      (match msg with | .none => "None" | v => pyTypeName v)))
  else .ok (.obj [("msg", msg), ("msg_style", msg_style)])

/-- The `Response` class materialized by `__getattr__` (and the
structurally identical local class `Resp` of `conversation`): both
arguments are stored without any validation. -/
def Response (resp resp_retcode : PyVal) : PyVal :=
  .obj [("resp", resp), ("resp_retcode", resp_retcode)]

/-- Attribute lookup on an object value, for `hasattr` / `getattr`
tests on conversation replies. -/
def getObjAttr : PyVal → String → Option PyVal
  | .obj attrs, name => attrs.lookup name
  | _, _ => Option.none

/-- One reply element of the delegate result coerced to a `Resp`
object, as in the loop of `conversation`: message-like objects
contribute `(m.msg, m.msg_style or 0)`, sequences of length at least
two contribute their first two elements, anything else is stringified
with status 0. -/
def coerceReply (m : PyVal) : PyVal :=
  match getObjAttr m "msg" with
  | some msgv => Response msgv ((getObjAttr m "msg_style").getD (.int 0))
  | Option.none =>
    match m with
    | .list (a :: b :: _) => Response a b
    | _ => Response (.str (pyStr m)) (.int 0)

/-- The signature-probing part of `conversation`: try
`conv(self, convs)`, on a `TypeError` try `conv(convs)`, on another
`TypeError` call `conv(self, convs, None)` with no further catch. -/
def convProbe (h : PamHandle_type) (convs : PyVal) : Except PyErr PyVal :=
  match h.conv.call2 convs with
  | .ok r => .ok r
  | .error e =>
    match e with
    | .typeError _ =>
      (match h.conv.call1 convs with
       | .ok r => .ok r
       | .error e2 =>
         match e2 with
         | .typeError _ => h.conv.call3 convs PyVal.none
         | e2 => .error e2)
    | e => .error e

/-- Normalization of the delegate result in `conversation`: a
sequence result is iterated, anything else is a single reply. -/
def convNormalize (res : PyVal) : List PyVal :=
  match res with
  | .list xs => xs
  | r => [r]

/-- The tail of `conversation`: a tuple of the responses for a
sequence payload, the single first response (or `None` when there is
none) for a non-sequence payload. -/
def convFinish (convs : PyVal) (responses : List PyVal) : PyVal :=
  match convs with
  | .list _ => .list responses
  | _ =>
    match responses with
    | [] => PyVal.none
    | r :: _ => r

/-- The `conversation` method of `PamHandle_type`: probe the delegate,
normalize its result to a list of replies, coerce each reply to a
`Resp`, and shape the result by the payload kind. -/
def PamHandle_type.conversation (h : PamHandle_type) (convs : PyVal) :
    Except PyErr PyVal := do
  let res ← convProbe h convs
  pure (convFinish convs ((convNormalize res).map coerceReply))

/-- The type of a module entry-point function: it receives the handle,
the flags value and the argument vector, and either returns a value or
raises.  (Module functions are modelled as pure: none of the claims
concerns a module mutating the handle.) -/
def PamFunc : Type :=
  PamHandle_type → PyVal → Option (List String) → Except PyErr PyVal

/-- A module attribute as seen by `getattr(self._user_module, name)`:
either a callable or a plain (non-callable) value. -/
inductive ModAttr where
  | func (f : PamFunc)
  | val (v : PyVal)

/-- The loaded user module: its `__file__` attribute, its
`PAM_CONSTANTS` dictionary when present and a dictionary (`some kvs`
models a dict; `none` models absent or not a dict), and its attribute
dictionary. -/
structure UserModule where
  file : Option String
  constants : Option (List (String × PyVal))
  attrs : List (String × ModAttr)

/-- `getattr(module, name, None)` followed by the `callable` test of
`_call_handler`: yields the function when the attribute exists and is
callable, and nothing otherwise. -/
def UserModule.getFunc (m : UserModule) (name : String) : Option PamFunc :=
  match m.attrs.lookup name with
  | some (ModAttr.func f) => some f
  | _ => Option.none

/-- The hypothesis of the Symbol-not-found branch: the module lacks
the attribute, or has it as a non-callable value. -/
def notCallable (m : UserModule) (name : String) : Prop :=
  m.attrs.lookup name = Option.none ∨
    ∃ v, m.attrs.lookup name = some (ModAttr.val v)

/-- One observed invocation of a module entry-point function: its
name, the flags value it received and the argument vector it
received. -/
structure CallRecord where
  fname : String
  flags : PyVal
  argv : Option (List String)

/-- The dispatcher, class `pam`: the loaded module, the transaction
handle and the service-argument table `_service_args` (`none` models
the attribute not existing, as before `start`).  Python also keeps
`_pamh = None` before `start`; every claim that reaches the handle
does so with a started dispatcher, so the handle field is total. -/
structure pam where
  user_module : Option UserModule
  pamh : PamHandle_type
  service_args : Option (List (String × List String))

/-- The `service_map` dictionary of `_call_handler`. -/
def service_map (name : String) : Option String :=
  if name = "pam_sm_authenticate" then some "auth"
  else if name = "pam_sm_setcred" then some "auth"
  else if name = "pam_sm_acct_mgmt" then some "account"
  else if name = "pam_sm_open_session" then some "session"
  else if name = "pam_sm_close_session" then some "session"
  else if name = "pam_sm_chauthtok" then some "password"
  else Option.none

/-- Argument-vector resolution of `_call_handler`: an explicit argv
wins; otherwise the service token mapped from the handler name is
looked up in `_service_args`; otherwise a one-element vector holding
the module's `__file__` (or, failing that, the handle's `module_path`)
is used; otherwise argv stays absent. -/
def pam.resolve_argv (p : pam) (m : UserModule) (name : String)
    (argv : Option (List String)) : Option (List String) :=
  match argv with
  | some a => some a
  | Option.none =>
    let fromSvc : Option (List String) :=
      match service_map name, p.service_args with
      | some svc, some sa => sa.lookup svc
      | _, _ => Option.none
    match fromSvc with
    | some a => some a
    | Option.none =>
      let mp : Option String :=
        match m.file with
        | some fp => some fp
        | Option.none =>
          match p.pamh.attrs.lookup "module_path" with
          | some (PyVal.str s) => some s
          | _ => Option.none
      match mp with
      | some fp => some [fp]
      | Option.none => Option.none

/-- Outcome translation of `_call_handler` around one module-function
result: integer return values are checked against zero and the ignore
constant is remapped to permission-denied; the two recognized
exception classes pass through; any other exception is wrapped into
`PamException(3, str(e))`. -/
def pam.handler_translate (p : pam) (r : Except PyErr PyVal) :
    Except PyErr PyVal :=
  match r with
  | .error e =>
    (match e with
     | .pamException c msg => .error (.pamException c msg)
     | .error msg c => .error (.error msg c)
     | e => .error (.pamException (.int 3) e.message))
  | .ok v =>
    if pyIsInt v then
      if pyEq v (.int 0) then .ok v
      else
        let ignore_val := p.pamh.getattrDefault "PAM_IGNORE" (.int 25)
        let perm_denied := p.pamh.getattrDefault "PAM_PERM_DENIED" (.int 6)
        .error (.error "pam service returned error"
          (if pyEq v ignore_val then perm_denied else v))
    else .ok v

/-- The `_call_handler` method of `pam`, paired with the list of
module invocations it performs (the trace is the observation device
for counting calls; the Python method performs exactly the recorded
calls). -/
def pam.call_handler (p : pam) (name : String) (fl : PyVal)
    (argv : Option (List String)) :
    Except PyErr PyVal × List CallRecord :=
  match p.user_module with
  | Option.none => (.error (.runtimeError "module not started"), [])
  | some m =>
    match m.getFunc name with
    | Option.none => (.error (.error "Symbol not found" (.int 2)), [])
    | some f =>
      let argvR := p.resolve_argv m name argv
      (p.handler_translate (f p.pamh fl argvR), [⟨name, fl, argvR⟩])

/-- The `authenticate` method of `pam`. -/
def pam.authenticate (p : pam) (flags : PyVal)
    (argv : Option (List String)) : Except PyErr PyVal × List CallRecord :=
  p.call_handler "pam_sm_authenticate" flags argv

/-- The `setcred` method of `pam`. -/
def pam.setcred (p : pam) (flags : PyVal)
    (argv : Option (List String)) : Except PyErr PyVal × List CallRecord :=
  p.call_handler "pam_sm_setcred" flags argv

/-- The `acct_mgmt` method of `pam`. -/
def pam.acct_mgmt (p : pam) (flags : PyVal)
    (argv : Option (List String)) : Except PyErr PyVal × List CallRecord :=
  p.call_handler "pam_sm_acct_mgmt" flags argv

/-- The `open_session` method of `pam`. -/
def pam.open_session (p : pam) (flags : PyVal)
    (argv : Option (List String)) : Except PyErr PyVal × List CallRecord :=
  p.call_handler "pam_sm_open_session" flags argv

/-- The `close_session` method of `pam`. -/
def pam.close_session (p : pam) (flags : PyVal)
    (argv : Option (List String)) : Except PyErr PyVal × List CallRecord :=
  p.call_handler "pam_sm_close_session" flags argv

/-- The `chauthtok` method of `pam`: a preliminary-check phase whose
error (raised exception) propagates and aborts the second phase, then
an update phase whose outcome is returned.  The `flags` parameter of
the Python signature is ignored by the body. -/
def pam.chauthtok (p : pam) (_flags : PyVal)
    (argv : Option (List String)) : Except PyErr PyVal × List CallRecord :=
  let prelim := p.pamh.getattrDefault "PAM_PRELIM_CHECK" (.int 16384)
  let update := p.pamh.getattrDefault "PAM_UPDATE_AUTHTOK" (.int 8192)
  match p.call_handler "pam_sm_chauthtok" prelim argv with
  | (Except.error e, t1) => (Except.error e, t1)
  | (Except.ok _, t1) =>
    let r2 := p.call_handler "pam_sm_chauthtok" update argv
    (r2.1, t1 ++ r2.2)

/-- A configuration line qualifies when it has at least four
whitespace-separated fields and its third field ends with
`pam_python.so`. -/
def line_qualifies (parts : List String) : Bool :=
  decide (parts.length ≥ 4) &&
    (match parts.get? 2 with
     | some p2 => pyEndsWith p2 "pam_python.so"
     | Option.none => false)

/-- Module-script discovery of `pam.start`: the fourth field of the
first qualifying line. -/
def find_module_script : List String → Option String
  | [] => Option.none
  | line :: rest =>
    let parts := splitWs line
    if line_qualifies parts then parts.get? 3
    else find_module_script rest

/-- Service-argument dictionary insertion with dict semantics (later
lines for the same first field overwrite earlier ones). -/
def svcInsert (d : List (String × List String)) (k : String)
    (v : List String) : List (String × List String) :=
  (k, v) :: d.filter (fun p => p.1 != k)

/-- The `_service_args` construction of `pam.start`: for every
qualifying line, key the line's first field to the fields from the
fourth onward. -/
def build_service_args : List String → List (String × List String) →
    List (String × List String)
  | [], d => d
  | line :: rest, d =>
    let parts := splitWs line
    if line_qualifies parts then
      build_service_args rest (svcInsert d (parts.headD "") (parts.drop 3))
    else build_service_args rest d

/-- Handle construction, `PamHandle_type.__init__`: the attribute
assignments run through `__setattr__` in source order (so a non-string
user raises the item type error), with `_constants_locked` initially
`False`.  The conversation delegate is stored in the delegate field
and the class-valued `exception` attribute is not representable as a
`PyVal` (no claim reads it). -/
def mkPamHandle (module_path : Option String) (user : PyVal)
    (conv : Conv) : Except PyErr PamHandle_type := do
  let h0 : PamHandle_type := ⟨[], conv⟩
  let h1 ← h0.setattr "module" PyVal.none
  let h2 ← h1.setattr "module_path"
    (match module_path with
     | some s => PyVal.str s
     | Option.none => PyVal.none)
  let h3 ← h2.setattr "user" user
  let h4 ← h3.setattr "_constants_locked" (PyVal.bool false)
  Except.ok h4

/-- The `start` method of `pam`, over the configuration file given as
its list of lines and a loader mapping a script path to the module it
defines (the loader sets the module's `__file__` to the path it was
given, as `SourceFileLoader` does).  File-system fallbacks of the
Python code (conventional `test.py`, unreadable config) concern the
absent-file case, which does not arise with the content given; the
debug JSON dump and the export of constants into the interpreter-wide
module namespace are side effects no claim observes. -/
def pam.start (cfgLines : List String) (loadModule : String → UserModule)
    (user : PyVal) (conv : Conv) : Except PyErr pam := do
  let module_script ←
    match find_module_script cfgLines with
    | some s => Except.ok s
    | Option.none =>
      Except.error (PyErr.runtimeError "could not find target python module")
  let user_mod := { loadModule module_script with file := some module_script }
  let pamh0 ← mkPamHandle (some module_script) user conv
  let pamh1 := pamh0.populate_constants user_mod.constants
  Except.ok
    { user_module := some user_mod
      pamh := pamh1
      service_args := some (build_service_args cfgLines []) }

/-- A string starting with `PAM_` does not start with `_`. -/
theorem startsWith_PAM_not_underscore (s : String)
    (h : pyStartsWith s "PAM_" = true) : pyStartsWith s "_" = false := by
  unfold pyStartsWith at h ⊢
  rw [show ("PAM_" : String).data = ['P', 'A', 'M', '_'] from rfl] at h
  rw [show ("_" : String).data = ['_'] from rfl]
  cases hd : s.data with
  | nil => rw [hd] at h; exact absurd h (by decide)
  | cons c cs =>
    rw [hd] at h
    simp only [listStartsWith, Bool.and_eq_true, beq_iff_eq] at h
    simp only [listStartsWith]
    rw [h.1]
    decide

/-- A string starting with `_PAM_` starts with `_`. -/
theorem startsWith_uPAM_underscore (s : String)
    (h : pyStartsWith s "_PAM_" = true) : pyStartsWith s "_" = true := by
  unfold pyStartsWith at h ⊢
  rw [show ("_PAM_" : String).data = ['_', 'P', 'A', 'M', '_'] from rfl] at h
  rw [show ("_" : String).data = ['_'] from rfl]
  cases hd : s.data with
  | nil => rw [hd] at h; exact absurd h (by decide)
  | cons c cs =>
    rw [hd] at h
    simp only [listStartsWith, Bool.and_eq_true, beq_iff_eq] at h
    simp only [listStartsWith]
    rw [h.1]
    decide

/-- No PAM item name starts with `PAM_`, so the item-validation branch
of `__setattr__` never fires for a constant name. -/
theorem item_const_lookup_PAM (name : String)
    (h : pyStartsWith name "PAM_" = true) :
    item_const_table.lookup name = Option.none := by
  have h1 : (name == "tty") = false := by
    refine beq_eq_false_iff_ne.mpr fun he => ?_
    rw [he] at h; exact absurd h (by decide)
  have h2 : (name == "user") = false := by
    refine beq_eq_false_iff_ne.mpr fun he => ?_
    rw [he] at h; exact absurd h (by decide)
  have h3 : (name == "rhost") = false := by
    refine beq_eq_false_iff_ne.mpr fun he => ?_
    rw [he] at h; exact absurd h (by decide)
  have h4 : (name == "ruser") = false := by
    refine beq_eq_false_iff_ne.mpr fun he => ?_
    rw [he] at h; exact absurd h (by decide)
  have h5 : (name == "user_prompt") = false := by
    refine beq_eq_false_iff_ne.mpr fun he => ?_
    rw [he] at h; exact absurd h (by decide)
  have h6 : (name == "xdisplay") = false := by
    refine beq_eq_false_iff_ne.mpr fun he => ?_
    rw [he] at h; exact absurd h (by decide)
  have h7 : (name == "authtok_type") = false := by
    refine beq_eq_false_iff_ne.mpr fun he => ?_
    rw [he] at h; exact absurd h (by decide)
  simp [item_const_table, List.lookup, h1, h2, h3, h4, h5, h6, h7]

/-- Looking up a key in a list filtered to exclude that key fails. -/
theorem lookup_filter_ne (l : List (String × String)) (k : String) :
    (l.filter (fun p => p.1 != k)).lookup k = Option.none := by
  induction l with
  | nil => rfl
  | cons p ps ih =>
    by_cases hc : p.1 = k
    · simp only [List.filter, hc, bne_self_eq_false]
      exact ih
    · simp only [List.filter]
      rw [show (p.1 != k) = true from bne_iff_ne.mpr hc]
      simp only [List.lookup]
      rw [show (k == p.1) = false from beq_eq_false_iff_ne.mpr (Ne.symm hc)]
      exact ih

/-- `_call_handler` with a located module function: the outcome is the
translated function result and exactly one invocation is performed,
with the resolved argument vector. -/
theorem call_handler_found (p : pam) (m : UserModule) (f : PamFunc)
    (name : String) (fl : PyVal) (argv : Option (List String))
    (hm : p.user_module = some m) (hf : m.getFunc name = some f) :
    p.call_handler name fl argv =
      (p.handler_translate (f p.pamh fl (p.resolve_argv m name argv)),
       [⟨name, fl, p.resolve_argv m name argv⟩]) := by
  simp [pam.call_handler, hm, hf]

/-- `_call_handler` with a missing or non-callable module attribute
fails with the Symbol-not-found error and performs no invocation. -/
theorem call_handler_missing (p : pam) (m : UserModule)
    (name : String) (fl : PyVal) (argv : Option (List String))
    (hm : p.user_module = some m) (hf : notCallable m name) :
    p.call_handler name fl argv =
      (.error (.error "Symbol not found" (.int 2)), []) := by
  have hg : m.getFunc name = Option.none := by
    unfold UserModule.getFunc
    rcases hf with hf | ⟨v, hf⟩ <;> rw [hf]
  simp [pam.call_handler, hm, hg]

/-- After `_populate_constants` the lock flag reads as `True`. -/
theorem populate_locks (h : PamHandle_type)
    (consts : Option (List (String × PyVal))) :
    (h.populate_constants consts).constantsLocked = true := by
  unfold PamHandle_type.populate_constants PamHandle_type.constantsLocked
    PamHandle_type.rawSet
  simp [List.lookup, pyTruthy]

/-- C7: for every non-empty string key containing no equals sign and
every string value, setting the key in the Environment Mapping and
getting it back returns exactly that value, and deleting it and
getting it again fails with the key-not-found error. -/
theorem env_set_get_delete_roundtrip (e : PamEnvMapping) (key value : String)
    (hk : key ≠ "") (he : key.data.contains '=' = false) :
    e.setitem key value = .ok ⟨dictInsert e.d key value⟩ ∧
    PamEnvMapping.getitem ⟨dictInsert e.d key value⟩ key = .ok value ∧
    PamEnvMapping.delitem ⟨dictInsert e.d key value⟩ key =
      .ok ⟨(dictInsert e.d key value).filter (fun p => p.1 != key)⟩ ∧
    PamEnvMapping.getitem
        ⟨(dictInsert e.d key value).filter (fun p => p.1 != key)⟩ key =
      .error (.keyError key) := by
  have hmem : '=' ∉ key.data := by simpa using he
  refine ⟨?_, ?_, ?_, ?_⟩
  · simp [PamEnvMapping.setitem, hk, hmem]
  · simp [PamEnvMapping.getitem, hk, hmem, dictInsert, List.lookup]
  · simp [PamEnvMapping.delitem, dictInsert, List.lookup]
  · simp only [PamEnvMapping.getitem, hk, he]
    rw [lookup_filter_ne]
    simp [hk, he]

/-- Witness for the environment round-trip at concrete inputs. -/
theorem env_set_get_delete_roundtrip_witness :
    (PamEnvMapping.mk []).setitem "K" "V" = .ok ⟨[("K", "V")]⟩ ∧
    PamEnvMapping.getitem ⟨[("K", "V")]⟩ "K" = .ok "V" ∧
    PamEnvMapping.delitem ⟨[("K", "V")]⟩ "K" = .ok ⟨[]⟩ ∧
    PamEnvMapping.getitem ⟨([] : List (String × String))⟩ "K" =
      .error (.keyError "K") :=
  env_set_get_delete_roundtrip ⟨[]⟩ "K" "V" (by decide) (by decide)

/-- C5: after the Constant Table is populated and sealed, writing any
name beginning with the reserved `PAM_` prefix fails with the
read-only attribute error, while writing a non-reserved name (here
with a string value, the shape the item validation of `__setattr__`
accepts for every name) succeeds; before sealing, writes to constant
names succeed. -/
theorem constants_sealed_after_population (h : PamHandle_type)
    (consts : Option (List (String × PyVal))) (name : String) (v : PyVal)
    (s : String) :
    (pyStartsWith name "PAM_" = true →
      (h.populate_constants consts).setattr name v =
        .error (.attributeError
          ("attribute " ++ name ++ " of PamHandle_type objects is not writable"))) ∧
    (pyStartsWith name "PAM_" = false → pyStartsWith name "_" = false →
      (h.populate_constants consts).setattr name (.str s) =
        .ok ((h.populate_constants consts).rawSet name (.str s))) ∧
    (h.constantsLocked = false → pyStartsWith name "PAM_" = true →
      h.setattr name v = .ok (h.rawSet name v)) := by
  refine ⟨?_, ?_, ?_⟩
  · intro hp
    have hu := startsWith_PAM_not_underscore name hp
    simp [PamHandle_type.setattr, hu, hp, populate_locks h consts]
  · intro hp hu
    have hup : pyStartsWith name "_PAM_" = false := by
      cases hx : pyStartsWith name "_PAM_" with
      | false => rfl
      | true =>
        have := startsWith_uPAM_underscore name hx
        rw [hu] at this
        exact absurd this (by decide)
    simp only [PamHandle_type.setattr, hu, hp, hup]
    cases hit : item_const_table.lookup name <;>
      simp [hit, PyVal.isStr]
  · intro hl hp
    have hu := startsWith_PAM_not_underscore name hp
    have hit := item_const_lookup_PAM name hp
    simp [PamHandle_type.setattr, hu, hl, hit]

/-- Witness for the sealing behaviour: a sealed handle rejects a
`PAM_`-prefixed write, accepts a plain write, and an unsealed handle
accepts a constant write. -/
theorem constants_sealed_after_population_witness :
    ((PamHandle_type.mk [] ⟨fun _ => .ok PyVal.none, fun _ => .ok PyVal.none,
        fun _ _ => .ok PyVal.none⟩).populate_constants Option.none).setattr
        "PAM_FOO" (.int 1) =
      .error (.attributeError
        "attribute PAM_FOO of PamHandle_type objects is not writable") ∧
    ((PamHandle_type.mk [] ⟨fun _ => .ok PyVal.none, fun _ => .ok PyVal.none,
        fun _ _ => .ok PyVal.none⟩).populate_constants Option.none).setattr
        "greeting" (.str "hello") =
      .ok (((PamHandle_type.mk [] ⟨fun _ => .ok PyVal.none,
        fun _ => .ok PyVal.none, fun _ _ => .ok PyVal.none⟩).populate_constants
          Option.none).rawSet "greeting" (.str "hello")) ∧
    (PamHandle_type.mk [] ⟨fun _ => .ok PyVal.none, fun _ => .ok PyVal.none,
        fun _ _ => .ok PyVal.none⟩).setattr "PAM_FOO" (.int 1) =
      .ok ((PamHandle_type.mk [] ⟨fun _ => .ok PyVal.none,
        fun _ => .ok PyVal.none, fun _ _ => .ok PyVal.none⟩).rawSet
          "PAM_FOO" (.int 1)) :=
  ⟨(constants_sealed_after_population _ Option.none "PAM_FOO" (.int 1) "x").1
      (by decide),
   (constants_sealed_after_population _ Option.none "greeting" PyVal.none
      "hello").2.1 (by decide) (by decide),
   (constants_sealed_after_population _ Option.none "PAM_FOO" (.int 1) "x").2.2
      rfl (by decide)⟩

/-- C9: a name beginning with an underscore (in particular any
`_PAM_`-prefixed name) is always written directly, locked or not; and
the only way `__setattr__` raises the read-only attribute error is for
a name beginning with `PAM_` while the constants are locked. -/
theorem underscore_names_always_writable (h : PamHandle_type) (name : String)
    (v : PyVal) :
    (pyStartsWith name "_" = true →
      h.setattr name v = .ok (h.rawSet name v)) ∧
    (∀ msg, h.setattr name v = .error (.attributeError msg) →
      pyStartsWith name "PAM_" = true ∧ h.constantsLocked = true) := by
  constructor
  · intro hu
    simp [PamHandle_type.setattr, hu]
  · intro msg herr
    by_cases hu : pyStartsWith name "_" = true
    · simp [PamHandle_type.setattr, hu] at herr
    · rw [Bool.not_eq_true] at hu
      by_cases hcond : (h.constantsLocked &&
          (pyStartsWith name "PAM_" || pyStartsWith name "_PAM_")) = true
      · have hparts := Bool.and_eq_true _ _ |>.mp hcond
        have hor := Bool.or_eq_true _ _ |>.mp hparts.2
        rcases hor with hp | hup
        · exact ⟨hp, hparts.1⟩
        · have := startsWith_uPAM_underscore name hup
          rw [hu] at this
          exact absurd this (by decide)
      · rw [Bool.not_eq_true] at hcond
        simp only [PamHandle_type.setattr, hu, hcond] at herr
        cases hit : item_const_table.lookup name <;> rw [hit] at herr <;>
          simp at herr
        cases hv : v.isStr <;> rw [hv] at herr <;> simp at herr

/-- Witness for the underscore-write behaviour: a locked handle still
accepts a `_PAM_`-prefixed write. -/
theorem underscore_names_always_writable_witness :
    (PamHandle_type.mk [("_constants_locked", .bool true)]
        ⟨fun _ => .ok PyVal.none, fun _ => .ok PyVal.none,
         fun _ _ => .ok PyVal.none⟩).setattr "_PAM_RETURN_VALUES" (.int 32) =
      .ok ((PamHandle_type.mk [("_constants_locked", .bool true)]
        ⟨fun _ => .ok PyVal.none, fun _ => .ok PyVal.none,
         fun _ _ => .ok PyVal.none⟩).rawSet "_PAM_RETURN_VALUES" (.int 32)) :=
  (underscore_names_always_writable _ "_PAM_RETURN_VALUES" (.int 32)).1
    (by decide)

/-- C8: for every lifecycle entry point of a started dispatcher, a
missing or non-callable module attribute of the corresponding
well-known name yields the structured error with message
`Symbol not found` and code 2 (and no module invocation). -/
theorem symbol_not_found_all_entry_points (p : pam) (m : UserModule)
    (fl : PyVal) (argv : Option (List String))
    (hm : p.user_module = some m) :
    (notCallable m "pam_sm_authenticate" →
      p.authenticate fl argv =
        (.error (.error "Symbol not found" (.int 2)), [])) ∧
    (notCallable m "pam_sm_setcred" →
      p.setcred fl argv = (.error (.error "Symbol not found" (.int 2)), [])) ∧
    (notCallable m "pam_sm_acct_mgmt" →
      p.acct_mgmt fl argv = (.error (.error "Symbol not found" (.int 2)), [])) ∧
    (notCallable m "pam_sm_open_session" →
      p.open_session fl argv =
        (.error (.error "Symbol not found" (.int 2)), [])) ∧
    (notCallable m "pam_sm_close_session" →
      p.close_session fl argv =
        (.error (.error "Symbol not found" (.int 2)), [])) ∧
    (notCallable m "pam_sm_chauthtok" →
      p.chauthtok fl argv =
        (.error (.error "Symbol not found" (.int 2)), [])) := by
  refine ⟨fun hnc => ?_, fun hnc => ?_, fun hnc => ?_, fun hnc => ?_,
    fun hnc => ?_, fun hnc => ?_⟩
  · exact call_handler_missing p m "pam_sm_authenticate" fl argv hm hnc
  · exact call_handler_missing p m "pam_sm_setcred" fl argv hm hnc
  · exact call_handler_missing p m "pam_sm_acct_mgmt" fl argv hm hnc
  · exact call_handler_missing p m "pam_sm_open_session" fl argv hm hnc
  · exact call_handler_missing p m "pam_sm_close_session" fl argv hm hnc
  · simp only [pam.chauthtok]
    rw [call_handler_missing p m "pam_sm_chauthtok" _ argv hm hnc]

/-- A module with no attributes at all, for the missing-symbol
witness, and the bare handle it is driven with. -/
def w8mod : UserModule := ⟨some "/x.py", Option.none, []⟩

/-- A sealed handle with only the default constant, shared by the
concrete dispatcher scenarios below. -/
def lockedHandle : PamHandle_type :=
  ⟨[("_constants_locked", PyVal.bool true), ("PAM_SUCCESS", PyVal.int 0)],
   ⟨fun _ => .ok PyVal.none, fun _ => .ok PyVal.none,
    fun _ _ => .ok PyVal.none⟩⟩

/-- A started dispatcher whose module defines nothing. -/
def w8pam : pam := ⟨some w8mod, lockedHandle, some []⟩

/-- Witness for the missing-symbol error on a concrete dispatcher
across two entry points. -/
theorem symbol_not_found_all_entry_points_witness :
    w8pam.authenticate (PyVal.int 0) Option.none =
      (.error (.error "Symbol not found" (.int 2)), []) ∧
    w8pam.chauthtok (PyVal.int 0) Option.none =
      (.error (.error "Symbol not found" (.int 2)), []) :=
  ⟨(symbol_not_found_all_entry_points w8pam w8mod (PyVal.int 0) Option.none
      rfl).1 (Or.inl rfl),
   (symbol_not_found_all_entry_points w8pam w8mod (PyVal.int 0) Option.none
      rfl).2.2.2.2.2 (Or.inl rfl)⟩

/-- C3: translation of an integer return value from a module entry
point: a non-zero value equal to the transaction's ignore constant
surfaces as the structured error carrying the permission-denied
constant; any other non-zero value surfaces as the structured error
carrying that value; zero is returned as success with no exception. -/
theorem return_code_translation (p : pam) (m : UserModule) (f : PamFunc)
    (name : String) (fl : PyVal) (argv : Option (List String)) (res : Int)
    (hm : p.user_module = some m) (hf : m.getFunc name = some f)
    (hres : f p.pamh fl (p.resolve_argv m name argv) = .ok (.int res)) :
    (res ≠ 0 →
      pyEq (.int res) (p.pamh.getattrDefault "PAM_IGNORE" (.int 25)) = true →
      p.call_handler name fl argv =
        (.error (.error "pam service returned error"
          (p.pamh.getattrDefault "PAM_PERM_DENIED" (.int 6))),
         [⟨name, fl, p.resolve_argv m name argv⟩])) ∧
    (res ≠ 0 →
      pyEq (.int res) (p.pamh.getattrDefault "PAM_IGNORE" (.int 25)) = false →
      p.call_handler name fl argv =
        (.error (.error "pam service returned error" (.int res)),
         [⟨name, fl, p.resolve_argv m name argv⟩])) ∧
    (res = 0 →
      p.call_handler name fl argv =
        (.ok (.int res), [⟨name, fl, p.resolve_argv m name argv⟩])) := by
  have hzero : ∀ hne : res ≠ 0, pyEq (.int res) (.int 0) = false := fun hne => by
    simp only [pyEq]
    exact beq_eq_false_iff_ne.mpr hne
  refine ⟨fun hne hig => ?_, fun hne hig => ?_, fun hz => ?_⟩
  · rw [call_handler_found p m f name fl argv hm hf, hres]
    simp only [pam.handler_translate, pyIsInt, if_true, hzero hne, hig,
      Bool.false_eq_true, if_false]
  · rw [call_handler_found p m f name fl argv hm hf, hres]
    simp only [pam.handler_translate, pyIsInt, if_true, hzero hne, hig,
      Bool.false_eq_true, if_false]
  · subst hz
    rw [call_handler_found p m f name fl argv hm hf, hres]
    simp [pam.handler_translate, pyIsInt, pyEq]

/-- The module function returning the default ignore constant, for the
translation witness. -/
def w3func : PamFunc := fun _ _ _ => Except.ok (PyVal.int 25)

/-- A module whose authenticate entry point returns the ignore
constant. -/
def w3mod : UserModule :=
  ⟨some "/x.py", Option.none, [("pam_sm_authenticate", ModAttr.func w3func)]⟩

/-- A started dispatcher over that module. -/
def w3pam : pam := ⟨some w3mod, lockedHandle, some []⟩

/-- Witness for the ignore-to-permission-denied remapping at a
concrete dispatcher (ignore defaults to 25, permission denied to 6). -/
theorem return_code_translation_witness :
    w3pam.call_handler "pam_sm_authenticate" (PyVal.int 0) Option.none =
      (.error (.error "pam service returned error" (PyVal.int 6)),
       [⟨"pam_sm_authenticate", PyVal.int 0, some ["/x.py"]⟩]) :=
  (return_code_translation w3pam w3mod w3func "pam_sm_authenticate"
    (PyVal.int 0) Option.none 25 rfl rfl rfl).1 (by decide) (by decide)

/-- C4: a module exception that is neither of the two recognized
structured forms is wrapped into the generic transaction exception
with code 3 and the original message; the recognized forms and the
wrapper are the only exception shapes that leave the dispatcher. -/
theorem foreign_exception_wrapped (p : pam) (m : UserModule) (f : PamFunc)
    (name : String) (fl : PyVal) (argv : Option (List String)) (e : PyErr)
    (hm : p.user_module = some m) (hf : m.getFunc name = some f)
    (hraise : f p.pamh fl (p.resolve_argv m name argv) = .error e)
    (hne1 : ∀ c s, e ≠ PyErr.pamException c s)
    (hne2 : ∀ s c, e ≠ PyErr.error s c) :
    p.call_handler name fl argv =
      (.error (.pamException (.int 3) e.message),
       [⟨name, fl, p.resolve_argv m name argv⟩]) := by
  rw [call_handler_found p m f name fl argv hm hf, hraise]
  cases e with
  | pamException c s => exact absurd rfl (hne1 c s)
  | error s c => exact absurd rfl (hne2 s c)
  | runtimeError s => rfl
  | typeError s => rfl
  | valueError s => rfl
  | attributeError s => rfl
  | keyError k => rfl
  | exception s => rfl

/-- The module function raising a plain runtime fault, for the
wrapping witness. -/
def w4func : PamFunc := fun _ _ _ => Except.error (PyErr.exception "disk full")

/-- A module whose open-session entry point raises `disk full`. -/
def w4mod : UserModule :=
  ⟨some "/x.py", Option.none, [("pam_sm_open_session", ModAttr.func w4func)]⟩

/-- A started dispatcher over that module. -/
def w4pam : pam := ⟨some w4mod, lockedHandle, some []⟩

/-- Witness: `open_session` on that dispatcher raises the transaction
exception with code 3 and the message `disk full`. -/
theorem foreign_exception_wrapped_witness :
    w4pam.open_session (PyVal.int 0) Option.none =
      (.error (.pamException (.int 3) "disk full"),
       [⟨"pam_sm_open_session", PyVal.int 0, some ["/x.py"]⟩]) :=
  foreign_exception_wrapped w4pam w4mod w4func "pam_sm_open_session"
    (PyVal.int 0) Option.none (PyErr.exception "disk full") rfl rfl rfl
    (fun _ _ h => PyErr.noConfusion h) (fun _ _ h => PyErr.noConfusion h)

/-- C1 (amended): when the preliminary-check call does not fail (its
translated outcome is a success value), `chauthtok` invokes the
module's `pam_sm_chauthtok` exactly twice, first with the
preliminary-check flag and then with the update flag, both phases
receiving the same resolved argv, and returns the second call's
outcome. -/
theorem chauthtok_two_phase_after_prelim_success (p : pam) (m : UserModule)
    (f : PamFunc) (fl : PyVal) (argv : Option (List String)) (v : PyVal)
    (hm : p.user_module = some m)
    (hf : m.getFunc "pam_sm_chauthtok" = some f)
    (h1 : (p.call_handler "pam_sm_chauthtok"
        (p.pamh.getattrDefault "PAM_PRELIM_CHECK" (.int 16384)) argv).1 =
      .ok v) :
    p.chauthtok fl argv =
      ((p.call_handler "pam_sm_chauthtok"
          (p.pamh.getattrDefault "PAM_UPDATE_AUTHTOK" (.int 8192)) argv).1,
       [⟨"pam_sm_chauthtok",
          p.pamh.getattrDefault "PAM_PRELIM_CHECK" (.int 16384),
          p.resolve_argv m "pam_sm_chauthtok" argv⟩,
        ⟨"pam_sm_chauthtok",
          p.pamh.getattrDefault "PAM_UPDATE_AUTHTOK" (.int 8192),
          p.resolve_argv m "pam_sm_chauthtok" argv⟩]) := by
  have hc1 := call_handler_found p m f "pam_sm_chauthtok"
    (p.pamh.getattrDefault "PAM_PRELIM_CHECK" (.int 16384)) argv hm hf
  have hc2 := call_handler_found p m f "pam_sm_chauthtok"
    (p.pamh.getattrDefault "PAM_UPDATE_AUTHTOK" (.int 8192)) argv hm hf
  rw [hc1] at h1
  have h1' : p.handler_translate
      (f p.pamh (p.pamh.getattrDefault "PAM_PRELIM_CHECK" (.int 16384))
        (p.resolve_argv m "pam_sm_chauthtok" argv)) = Except.ok v := h1
  simp only [pam.chauthtok]
  rw [hc1, hc2, h1']
  simp

/-- The chauthtok module function that succeeds in both phases, for
the two-phase witness. -/
def w1func : PamFunc := fun _ _ _ => Except.ok (PyVal.int 0)

/-- A module whose chauthtok entry point always returns success. -/
def w1mod : UserModule :=
  ⟨some "/x.py", Option.none, [("pam_sm_chauthtok", ModAttr.func w1func)]⟩

/-- A started dispatcher over that module. -/
def w1pam : pam := ⟨some w1mod, lockedHandle, some []⟩

/-- Witness: with a succeeding preliminary phase, `chauthtok` performs
exactly the two recorded invocations, flags 16384 then 8192, same
argv, and returns the update phase's outcome. -/
theorem chauthtok_two_phase_witness :
    w1pam.chauthtok (PyVal.int 0) Option.none =
      (Except.ok (PyVal.int 0),
       [⟨"pam_sm_chauthtok", PyVal.int 16384, some ["/x.py"]⟩,
        ⟨"pam_sm_chauthtok", PyVal.int 8192, some ["/x.py"]⟩]) :=
  chauthtok_two_phase_after_prelim_success w1pam w1mod w1func (PyVal.int 0)
    Option.none (PyVal.int 0) rfl rfl rfl

/-- The chauthtok module function that returns the non-zero status 1,
for the counterexample to the unconditional two-phase claim. -/
def c1func : PamFunc := fun _ _ _ => Except.ok (PyVal.int 1)

/-- A module whose chauthtok entry point returns 1 in every phase. -/
def c1mod : UserModule :=
  ⟨some "/x.py", Option.none, [("pam_sm_chauthtok", ModAttr.func c1func)]⟩

/-- A started dispatcher over that module. -/
def c1pam : pam := ⟨some c1mod, lockedHandle, some []⟩

/-- Counterexample to C1 as stated: the loaded module's chauthtok
returns the non-zero status 1, so the preliminary-check call's status
is not discarded — its translated error propagates, the module is
invoked exactly once (one trace record, not two), and the update phase
never runs. -/
theorem chauthtok_single_call_counterexample :
    c1pam.chauthtok (PyVal.int 0) Option.none =
      (.error (.error "pam service returned error" (PyVal.int 1)),
       [⟨"pam_sm_chauthtok", PyVal.int 16384, some ["/x.py"]⟩]) ∧
    (c1pam.chauthtok (PyVal.int 0) Option.none).2.length ≠ 2 :=
  ⟨rfl, by decide⟩

/-- The configuration file of the end-to-end scenario, as its single
line. -/
def c2cfg : List String :=
  ["login auth /lib/pam_python.so /opt/mod.py arg1 arg2"]

/-- The scenario module: it defines `pam_sm_authenticate` returning
success. -/
def c2func : PamFunc := fun _ _ _ => Except.ok (PyVal.int 0)

/-- The scenario module body, before the loader sets `__file__`. -/
def c2mod : UserModule :=
  ⟨Option.none, Option.none, [("pam_sm_authenticate", ModAttr.func c2func)]⟩

/-- A fallback dispatcher value for extracting the `start` result. -/
def c2fallback : pam :=
  ⟨Option.none,
   ⟨[], ⟨fun _ => .ok PyVal.none, fun _ => .ok PyVal.none,
     fun _ _ => .ok PyVal.none⟩⟩,
   Option.none⟩

/-- The dispatcher produced by `start` on the scenario configuration
(`start` succeeds, as the theorems below record). -/
def c2pam : pam :=
  (pam.start c2cfg (fun _ => c2mod) (PyVal.str "user1")
    ⟨fun _ => .ok PyVal.none, fun _ => .ok PyVal.none,
     fun _ _ => .ok PyVal.none⟩).toOption.getD c2fallback

/-- Counterexample to C2 as stated: on the configuration line
`login auth /lib/pam_python.so /opt/mod.py arg1 arg2`, the
Service-Argument Table is keyed by the line's first field `login` (so
no entry for `auth` exists) and its stored vector starts with the
script path; consequently `authenticate` with no explicit argv falls
back to invoking `pam_sm_authenticate(handle, 0, [/opt/mod.py])`, not
with `[arg1, arg2]`. -/
theorem config_scenario_counterexample :
    (c2pam.service_args.getD []).lookup "auth" = Option.none ∧
    c2pam.service_args = some [("login", ["/opt/mod.py", "arg1", "arg2"])] ∧
    (c2pam.authenticate (PyVal.int 0) Option.none).2 =
      [⟨"pam_sm_authenticate", PyVal.int 0, some ["/opt/mod.py"]⟩] ∧
    some ["/opt/mod.py"] ≠ some ["arg1", "arg2"] :=
  ⟨rfl, rfl, rfl, by decide⟩

/-- C2 (amended): on that configuration line, `start` resolves the
module script path to `/opt/mod.py` and builds the Service-Argument
Table `{login: [/opt/mod.py, arg1, arg2]}` (keyed by the first field,
its vector including the script path); `authenticate` with no explicit
argv misses the `auth` lookup and invokes
`pam_sm_authenticate(handle, 0, [/opt/mod.py])`, the fallback vector
holding the module's own path. -/
theorem config_scenario_amended :
    pam.start c2cfg (fun _ => c2mod) (PyVal.str "user1")
      ⟨fun _ => .ok PyVal.none, fun _ => .ok PyVal.none,
       fun _ _ => .ok PyVal.none⟩ = Except.ok c2pam ∧
    find_module_script c2cfg = some "/opt/mod.py" ∧
    c2pam.pamh.attrs.lookup "module_path" = some (PyVal.str "/opt/mod.py") ∧
    c2pam.service_args = some [("login", ["/opt/mod.py", "arg1", "arg2"])] ∧
    c2pam.authenticate (PyVal.int 0) Option.none =
      (Except.ok (PyVal.int 0),
       [⟨"pam_sm_authenticate", PyVal.int 0, some ["/opt/mod.py"]⟩]) :=
  ⟨rfl, rfl, rfl, rfl, rfl⟩

/-- Every coerced reply is a `Resp` object, never a sequence. -/
theorem coerceReply_not_list (m : PyVal) : (coerceReply m).isList = false := by
  unfold coerceReply
  cases hg : getObjAttr m "msg" with
  | some msgv => rfl
  | none =>
    cases m with
    | list xs =>
      cases xs with
      | nil => rfl
      | cons a tl => cases tl with | nil => rfl | cons b tl2 => rfl
    | none => rfl
    | bool b => rfl
    | int n => rfl
    | str s => rfl
    | obj attrs => rfl

/-- `conversation` after a successful delegate probe. -/
theorem conversation_eq_of_probe (h : PamHandle_type) (convs res : PyVal)
    (hp : convProbe h convs = .ok res) :
    h.conversation convs =
      .ok (convFinish convs ((convNormalize res).map coerceReply)) := by
  unfold PamHandle_type.conversation
  rw [hp]
  rfl

/-- `conversation` after a failed delegate probe. -/
theorem conversation_eq_of_probe_error (h : PamHandle_type) (convs : PyVal)
    (e : PyErr) (hp : convProbe h convs = .error e) :
    h.conversation convs = .error e := by
  unfold PamHandle_type.conversation
  rw [hp]
  rfl

/-- For a non-sequence payload the shaped result is never a
sequence. -/
theorem convFinish_not_list (convs : PyVal) (l : List PyVal)
    (hnl : convs.isList = false) :
    (convFinish convs (l.map coerceReply)).isList = false := by
  unfold convFinish
  cases convs with
  | list xs => simp [PyVal.isList] at hnl
  | none =>
    cases l with
    | nil => rfl
    | cons a tl => exact coerceReply_not_list a
  | bool b =>
    cases l with
    | nil => rfl
    | cons a tl => exact coerceReply_not_list a
  | int n =>
    cases l with
    | nil => rfl
    | cons a tl => exact coerceReply_not_list a
  | str s =>
    cases l with
    | nil => rfl
    | cons a tl => exact coerceReply_not_list a
  | obj attrs =>
    cases l with
    | nil => rfl
    | cons a tl => exact coerceReply_not_list a

/-- C6 (amended): for every delegate and non-sequence payload the
conversation result is a single value, never a sequence (and the
neutral `None` when the delegate produced no replies); for a sequence
payload the result is the tuple of the delegate's coerced replies in
order — so it has the payload's length exactly when the delegate
produced one reply per message, which the conversation code itself
does not enforce. -/
theorem conversation_shape (h : PamHandle_type) (convs : PyVal) :
    (∀ v, convs.isList = false → h.conversation convs = .ok v →
      v.isList = false) ∧
    (convs.isList = false → convProbe h convs = .ok (.list []) →
      h.conversation convs = .ok PyVal.none) ∧
    (∀ ms rs, convs = .list ms → convProbe h convs = .ok (.list rs) →
      h.conversation convs = .ok (.list (rs.map coerceReply)) ∧
      (rs.length = ms.length →
        (rs.map coerceReply).length = ms.length)) := by
  refine ⟨?_, ?_, ?_⟩
  · intro v hnl hok
    cases hp : convProbe h convs with
    | error e =>
      rw [conversation_eq_of_probe_error h convs e hp] at hok
      exact absurd hok (by simp)
    | ok res =>
      rw [conversation_eq_of_probe h convs res hp] at hok
      have hv : convFinish convs ((convNormalize res).map coerceReply) = v :=
        by injection hok
      rw [← hv]
      exact convFinish_not_list convs (convNormalize res) hnl
  · intro hnl hpe
    rw [conversation_eq_of_probe h convs (.list []) hpe]
    cases convs with
    | list xs => simp [PyVal.isList] at hnl
    | none => rfl
    | bool b => rfl
    | int n => rfl
    | str s => rfl
    | obj attrs => rfl
  · intro ms rs hcv hpe
    subst hcv
    refine ⟨?_, fun hlen => ?_⟩
    · rw [conversation_eq_of_probe h (.list ms) (.list rs) hpe]
      rfl
    · simp [hlen]

/-- A delegate producing the single reply `one` for any payload, for
the cardinality counterexample. -/
def c6conv : Conv :=
  ⟨fun _ => Except.ok (PyVal.str "one"), fun _ => Except.ok PyVal.none,
   fun _ _ => Except.ok PyVal.none⟩

/-- A handle carrying that delegate. -/
def c6handle : PamHandle_type := ⟨[], c6conv⟩

/-- Counterexample to C6 as stated: with a two-message sequence
payload, a delegate producing a single reply makes `conversation`
return a one-element tuple, not a sequence of length two — the
response count follows the delegate's replies, not the payload
length. -/
theorem conversation_cardinality_counterexample :
    c6handle.conversation (PyVal.list [PyVal.str "p1", PyVal.str "p2"]) =
      Except.ok (PyVal.list [Response (PyVal.str "one") (PyVal.int 0)]) ∧
    [Response (PyVal.str "one") (PyVal.int 0)].length ≠
      [PyVal.str "p1", PyVal.str "p2"].length :=
  ⟨rfl, by decide⟩

/-- A delegate producing two replies for any payload, for the shape
witness. -/
def w6conv : Conv :=
  ⟨fun _ => Except.ok (PyVal.list [PyVal.str "a", PyVal.str "b"]),
   fun _ => Except.ok PyVal.none, fun _ _ => Except.ok PyVal.none⟩

/-- A handle carrying that delegate. -/
def w6handle : PamHandle_type := ⟨[], w6conv⟩

/-- Witness for the conversation shape: a non-sequence payload yields
the single first response, and a two-message payload with a two-reply
delegate yields the two coerced responses in order. -/
theorem conversation_shape_witness :
    (Response (PyVal.str "a") (PyVal.int 0)).isList = false ∧
    w6handle.conversation (PyVal.list [PyVal.str "p1", PyVal.str "p2"]) =
      Except.ok (PyVal.list
        ([PyVal.str "a", PyVal.str "b"].map coerceReply)) ∧
    ([PyVal.str "a", PyVal.str "b"].map coerceReply).length =
      [PyVal.str "p1", PyVal.str "p2"].length :=
  ⟨(conversation_shape w6handle (PyVal.str "p")).1
      (Response (PyVal.str "a") (PyVal.int 0)) rfl rfl,
   ((conversation_shape w6handle
      (PyVal.list [PyVal.str "p1", PyVal.str "p2"])).2.2
      [PyVal.str "p1", PyVal.str "p2"] [PyVal.str "a", PyVal.str "b"]
      rfl rfl).1,
   ((conversation_shape w6handle
      (PyVal.list [PyVal.str "p1", PyVal.str "p2"])).2.2
      [PyVal.str "p1", PyVal.str "p2"] [PyVal.str "a", PyVal.str "b"]
      rfl rfl).2 rfl⟩

/-- C10: constructing a `Response` stores both arguments, of whatever
shapes, with no validation and no failure path (the constructor is a
total function into object values), whereas `Message` construction
succeeds exactly when the style argument is an integer and the text
argument is a string. -/
theorem response_message_construction (resp rc style text : PyVal) :
    getObjAttr (Response resp rc) "resp" = some resp ∧
    getObjAttr (Response resp rc) "resp_retcode" = some rc ∧
    ((∃ v, Message style text = Except.ok v) ↔
      (pyIsInt style = true ∧ text.isStr = true)) := by
  refine ⟨rfl, rfl, ?_⟩
  constructor
  · rintro ⟨v, hv⟩
    cases hs : pyIsInt style <;> cases ht : text.isStr <;>
      simp [Message, hs, ht] at hv ⊢
  · rintro ⟨hs, ht⟩
    exact ⟨.obj [("msg", text), ("msg_style", style)],
      by simp [Message, hs, ht]⟩

/-- Witness for the constructor contract: `Response` stores an
integer reply text unvalidated, and `Message(1, "hi")` constructs. -/
theorem response_message_construction_witness :
    getObjAttr (Response (PyVal.int 7) (PyVal.str "ok")) "resp" =
      some (PyVal.int 7) ∧
    (pyIsInt (PyVal.int 1) = true ∧ (PyVal.str "hi").isStr = true) :=
  ⟨(response_message_construction (PyVal.int 7) (PyVal.str "ok")
      (PyVal.int 1) (PyVal.str "hi")).1,
   (response_message_construction (PyVal.int 7) (PyVal.str "ok")
      (PyVal.int 1) (PyVal.str "hi")).2.2.mp ⟨_, rfl⟩⟩
